import Mathlib

/-!
Verification of the media catalog synchronization and admin-mutation workflow
of a portfolio website.  The admin component exists in two variants in the
source (an earlier and a later implementation of the media manager); both are
embedded here, suffixed _v1 and _v2.  Remote services (the catalog table and
the blob storage bucket) are modelled as explicit state, with a RemoteEnv
describing which remote calls succeed.  Every network call a handler issues is
recorded in an effect trace, in issue order, so that before-any-network-call
and no-row-inserted properties are statements about the trace.
-/

namespace MediaCatalog

/-- The JS String.prototype.trim, written over the character list so that it
evaluates by kernel reduction. -/
def trimStr (s : String) : String :=
  String.mk (((s.toList.dropWhile Char.isWhitespace).reverse.dropWhile
    Char.isWhitespace).reverse)

/-- The JS String.prototype.toLowerCase, over the character list. -/
def lowerStr (s : String) : String := String.mk (s.toList.map Char.toLower)

/-- The JS String.prototype.endsWith, over the character lists. -/
def endsWithStr (s suf : String) : Bool := suf.toList.isSuffixOf s.toList

/-- A browser File object, restricted to the fields the admin code reads. -/
structure WFile where
  name : String
  type : String
  size : Nat
deriving DecidableEq

/-- A row of the website_media table, after the two migrations.  Optional
columns are Options; absent values are none. -/
structure MediaRow where
  id : Nat
  name : String
  url : String
  type : String
  created_at : Nat
  title : String
  description : String
  type_detail : String
  mediatype : String
  isexternallink : Bool
  storagepath : Option String
  video_thumbnail_url : Option String
  video_thumbnail_path : Option String
deriving DecidableEq

/-- The document passed to the catalog insert call.  Fields the caller omits
are modelled as none, matching the null column defaults of the table. -/
structure InsertDoc where
  name : String
  url : String
  type : String
  title : String
  description : String
  type_detail : String
  mediatype : String
  isexternallink : Bool
  storagepath : Option String
  video_thumbnail_url : Option String
  video_thumbnail_path : Option String
deriving DecidableEq

/-- The partial update sent by the edit handlers: a field is sent to the
store exactly when it is some. -/
structure UpdateData where
  title : Option String
  description : Option String
  type_detail : Option String
  name : Option String
deriving DecidableEq

/-- One network call issued by a handler. -/
inductive Effect where
  | storagePut (path : String)
  | storageRemove (path : String)
  | dbInsert (doc : InsertDoc)
  | dbUpdate (id : Nat) (data : UpdateData)
  | dbDelete (id : Nat)
deriving DecidableEq

/-- The outcome a handler surfaces to the UI, following the error taxonomy:
validation errors are raised before any network call, upload errors by a
failed blob write, persist errors by a failed catalog write. -/
inductive RunStatus where
  | success
  | validationError (msg : String)
  | uploadError (msg : String)
  | persistError (msg : String)
deriving DecidableEq

/-- Combined remote state: the catalog table, the set of stored blob paths,
the next id the table will assign, and the current clock (Date.now). -/
structure SysState where
  catalog : List MediaRow
  blobs : List String
  nextId : Nat
  now : Nat
deriving DecidableEq

/-- Which remote calls succeed.  Handlers consult this instead of performing
real remote calls; an adversarial environment models partial remote failure. -/
structure RemoteEnv where
  putOk : String → Bool
  removeOk : String → Bool
  insertOk : Bool
  updateOk : Bool
  deleteOk : Nat → Bool

/-- Result of running one handler: the remote state afterwards, the surfaced
status, and the trace of network calls in issue order. -/
structure HandlerOut where
  state : SysState
  status : RunStatus
  effects : List Effect

/-! ### Store primitives -/

/-- Materialize an inserted document as a table row: the store assigns the id
and the created_at timestamp, all other columns come from the document. -/
def rowOfDoc (id now : Nat) (d : InsertDoc) : MediaRow :=
  { id := id, created_at := now, name := d.name, url := d.url, type := d.type,
    title := d.title, description := d.description, type_detail := d.type_detail,
    mediatype := d.mediatype, isexternallink := d.isexternallink,
    storagepath := d.storagepath, video_thumbnail_url := d.video_thumbnail_url,
    video_thumbnail_path := d.video_thumbnail_path }

/-- storage.from(media).upload(path, file): on success the blob exists under
the path; on failure nothing changes. -/
def putBlob (env : RemoteEnv) (s : SysState) (path : String) : SysState × Bool :=
  if env.putOk path then ({ s with blobs := path :: s.blobs }, true) else (s, false)

/-- storage.from(media).remove([path]). -/
def removeBlob (env : RemoteEnv) (s : SysState) (path : String) : SysState × Bool :=
  if env.removeOk path then
    ({ s with blobs := s.blobs.filter (fun q => q ≠ path) }, true)
  else (s, false)

/-- from(website_media).insert([doc]). -/
def insertRow (env : RemoteEnv) (s : SysState) (doc : InsertDoc) : SysState × Bool :=
  if env.insertOk then
    ({ s with catalog := rowOfDoc s.nextId s.now doc :: s.catalog,
              nextId := s.nextId + 1 }, true)
  else (s, false)

/-- Apply a partial update to a row: a field changes exactly when it is sent. -/
def applyUpdateData (u : UpdateData) (r : MediaRow) : MediaRow :=
  { r with title := u.title.getD r.title,
           description := u.description.getD r.description,
           type_detail := u.type_detail.getD r.type_detail,
           name := u.name.getD r.name }

/-- from(website_media).update(data).eq(id, id). -/
def updateRows (env : RemoteEnv) (s : SysState) (id : Nat) (u : UpdateData) :
    SysState × Bool :=
  if env.updateOk then
    let f := fun r => if r.id == id then applyUpdateData u r else r
    ({ s with catalog := s.catalog.map f }, true)
  else (s, false)

/-- from(website_media).delete().eq(id, id). -/
def deleteRow (env : RemoteEnv) (s : SysState) (id : Nat) : SysState × Bool :=
  if env.deleteOk id then
    ({ s with catalog := s.catalog.filter (fun r => r.id ≠ id) }, true)
  else (s, false)

/-- getPublicUrl is computed locally by the storage client from the bucket
name and the path; it involves no network call. -/
def getPublicUrl (path : String) : String :=
  "https://supabase.storage/media/" ++ path

/-- The optional-thumbnail upload step shared by both upload handlers: when
the operation is a video upload and a thumbnail file is present, upload it;
a failure is only logged and the upload continues with null thumbnail URL
and path. -/
def thumbStep (env : RemoteEnv) (s1 : SysState) (cond : Bool)
    (tfOpt : Option WFile) (mkPath : WFile → String) :
    SysState × Option String × Option String × List Effect :=
  if cond then
    match tfOpt with
    | some tf =>
      let tp := mkPath tf
      match putBlob env s1 tp with
      | (s2, true) => (s2, some (getPublicUrl tp), some tp, [Effect.storagePut tp])
      | (s2, false) => (s2, none, none, [Effect.storagePut tp])
    | none => (s1, none, none, [])
  else (s1, none, none, [])

/-- The final catalog-insert step of both upload handlers. -/
def insertStep (env : RemoteEnv) (s2 : SysState) (doc : InsertDoc)
    (effs : List Effect) (failMsg : String) : HandlerOut :=
  match insertRow env s2 doc with
  | (s3, true) => ⟨s3, RunStatus.success, effs ++ [Effect.dbInsert doc]⟩
  | (s3, false) => ⟨s3, RunStatus.persistError failMsg, effs ++ [Effect.dbInsert doc]⟩

/-! ### Validation (second implementation) -/

def ALLOWED_IMAGE_TYPES : List String :=
  ["image/jpeg", "image/jpg", "image/png", "image/gif", "image/webp",
   "image/svg+xml", "image/bmp", "image/tiff"]

def ALLOWED_VIDEO_TYPES : List String :=
  ["video/mp4", "video/webm", "video/ogg"]

def ALL_ALLOWED_TYPES : List String := ALLOWED_IMAGE_TYPES ++ ALLOWED_VIDEO_TYPES

def MAX_IMAGE_SIZE : Nat := 10 * 1024 * 1024

def MAX_VIDEO_SIZE : Nat := 100 * 1024 * 1024

def MAX_THUMBNAIL_SIZE : Nat := 5 * 1024 * 1024

/-- Result shape of validateFile and validateUrl. -/
structure VResult where
  isValid : Bool
  error : Option String
deriving DecidableEq

/-- validateFile from the second implementation, translated branch for
branch.  The boolean argument selects thumbnail validation. -/
def validateFile (file : WFile) (isThumbail : Bool) : VResult :=
  if isThumbail then
    if (ALLOWED_IMAGE_TYPES.contains file.type) = false then
      ⟨false, some "Thumbnail must be an image. Supported formats: JPG, PNG, GIF, WebP."⟩
    else if MAX_THUMBNAIL_SIZE < file.size then
      ⟨false, some "Thumbnail file too large. Maximum size is 5MB."⟩
    else ⟨true, none⟩
  else
    if (ALL_ALLOWED_TYPES.contains file.type) = false then
      ⟨false, some "Unsupported file type. Please select a valid image or video file."⟩
    else
      let isImage := ALLOWED_IMAGE_TYPES.contains file.type
      let isVideo := ALLOWED_VIDEO_TYPES.contains file.type
      if isImage && decide (MAX_IMAGE_SIZE < file.size) then
        ⟨false, some "Image file too large. Maximum size is 10MB."⟩
      else if isVideo && decide (MAX_VIDEO_SIZE < file.size) then
        ⟨false, some "Video file too large. Maximum size is 100MB."⟩
      else
        let lowName := lowerStr file.name
        if file.type == "video/mp4" && !(endsWithStr lowName ".mp4") then
          ⟨false, some "File extension does not match the video format."⟩
        else if file.type == "video/webm" && !(endsWithStr lowName ".webm") then
          ⟨false, some "File extension does not match the video format."⟩
        else if file.type == "video/ogg" && !(endsWithStr lowName ".ogg")
            && !(endsWithStr lowName ".ogv") then
          ⟨false, some "File extension does not match the video format."⟩
        else ⟨true, none⟩

/-- Modelled from the spec: validateUrl calls the browser URL constructor,
which is not part of src/; the spec says the string must parse as an absolute
URL, modelled here as a nonempty alphabetic scheme followed by a colon. -/
def isAbsoluteUrl (s : String) : Bool :=
  let l := s.toList
  let scheme := l.takeWhile (fun c => c ≠ ':')
  scheme ≠ [] && scheme.length < l.length && scheme.all Char.isAlpha

/-- validateUrl from the second implementation. -/
def validateUrl (url : String) : VResult :=
  if isAbsoluteUrl url then ⟨true, none⟩
  else ⟨false, some "Please enter a valid URL"⟩

/-- The filename sanitization of the second implementation: every character
outside letters, digits, dot and dash becomes an underscore. -/
def sanitizeFileName (s : String) : String :=
  String.mk (s.toList.map
    (fun c => if c.isAlphanum || c == '.' || c == '-' then c else '_'))

/-! ### First implementation (earlier admin manager) -/

/-- The upload form state of the first implementation. -/
structure UploadFormV1 where
  file : Option WFile
  thumbnailFile : Option WFile
  title : String
  description : String
  type_detail : String
  mediatype : String
  isExternalLink : Bool
  externalUrl : String
deriving DecidableEq

/-- Storage path the first implementation chooses for the main file. -/
def mainFilePathV1 (now : Nat) (mediatype : String) (f : WFile) : String :=
  (if mediatype == "video" then "videos/" else "images/")
    ++ toString now ++ "_" ++ f.name

/-- Thumbnail storage path of the first implementation. -/
def thumbPathV1 (now : Nat) (tf : WFile) : String :=
  "thumbnails/" ++ toString now ++ "_thumbnail_" ++ tf.name

/-- The document the first implementation inserts for a file upload.  An
empty title falls back to the file name (JS truthiness). -/
def docOfUploadV1 (form : UploadFormV1) (f : WFile) (url filePath : String)
    (turl tpath : Option String) : InsertDoc :=
  { name := f.name, url := url, type := f.type,
    title := if form.title == "" then f.name else form.title,
    description := form.description, type_detail := form.type_detail,
    mediatype := form.mediatype, isexternallink := false,
    storagepath := some filePath,
    video_thumbnail_url := turl, video_thumbnail_path := tpath }

/-- handleFileUpload of the first implementation.  Note: it performs no file
validation at all; it goes straight to the storage upload. -/
def handleFileUpload_v1 (form : UploadFormV1) (env : RemoteEnv) (s : SysState) :
    HandlerOut :=
  match form.file with
  | none => ⟨s, RunStatus.validationError "Please select a file to upload", []⟩
  | some f =>
    let filePath := mainFilePathV1 s.now form.mediatype f
    match putBlob env s filePath with
    | (s1, false) =>
      ⟨s1, RunStatus.uploadError "Upload failed", [Effect.storagePut filePath]⟩
    | (s1, true) =>
      let url := getPublicUrl filePath
      match thumbStep env s1 (form.mediatype == "video") form.thumbnailFile
          (thumbPathV1 s.now) with
      | (s2, turl, tpath, teff) =>
        insertStep env s2 (docOfUploadV1 form f url filePath turl tpath)
          (Effect.storagePut filePath :: teff) "Database error"

/-- The document the first implementation inserts for an external link: the
link-kind tag is derived from the selected mediatype, storagepath is null and
the thumbnail columns are left at their null defaults. -/
def docOfLinkV1 (form : UploadFormV1) : InsertDoc :=
  { name := if form.title == "" then "External Link" else form.title,
    url := form.externalUrl,
    type := if form.mediatype == "video" then "video-link" else "image-link",
    title := if form.title == "" then "External Link" else form.title,
    description := form.description, type_detail := form.type_detail,
    mediatype := form.mediatype, isexternallink := true,
    storagepath := none, video_thumbnail_url := none,
    video_thumbnail_path := none }

/-- handleExternalLinkUpload of the first implementation: only a nonempty
URL is required, then the document is inserted. -/
def handleExternalLinkUpload_v1 (form : UploadFormV1) (env : RemoteEnv)
    (s : SysState) : HandlerOut :=
  if form.externalUrl == "" then
    ⟨s, RunStatus.validationError "Please enter a valid URL", []⟩
  else
    insertStep env s (docOfLinkV1 form) [] "Database error"

/-- The edit form of the first implementation: a Partial MediaItem, a field
being undefined is modelled as none. -/
structure EditFormV1 where
  title : Option String
  description : Option String
  type_detail : Option String
  name : Option String
deriving DecidableEq

/-- handleUpdate of the first implementation builds updateData from exactly
the fields present in the edit form. -/
def updateDataV1 (f : EditFormV1) : UpdateData :=
  { title := f.title, description := f.description,
    type_detail := f.type_detail, name := f.name }

/-- handleUpdate of the first implementation. -/
def handleUpdate_v1 (id : Nat) (f : EditFormV1) (env : RemoteEnv) (s : SysState) :
    HandlerOut :=
  let u := updateDataV1 f
  let res := updateRows env s id u
  ⟨res.1,
   if res.2 then RunStatus.success
   else RunStatus.persistError "Failed to update media item",
   [Effect.dbUpdate id u]⟩

/-- handleDelete of the first implementation: when a storage path is passed
the blob removal is attempted FIRST (its failure is only logged), and the
catalog row is deleted afterwards. -/
def handleDelete_v1 (id : Nat) (storagePath : Option String) (env : RemoteEnv)
    (s : SysState) : HandlerOut :=
  let pre : SysState × List Effect :=
    match storagePath with
    | some p => ((removeBlob env s p).1, [Effect.storageRemove p])
    | none => (s, [])
  let res := deleteRow env pre.1 id
  ⟨res.1,
   if res.2 then RunStatus.success
   else RunStatus.persistError "Failed to delete media item",
   pre.2 ++ [Effect.dbDelete id]⟩

/-! ### Second implementation (later admin manager) -/

/-- The newMedia form state of the second implementation. -/
structure NewMediaV2 where
  title : String
  description : String
  type_detail : String
  externalUrl : String
  linkType : String
  file : Option WFile
  thumbnailFile : Option WFile
deriving DecidableEq

/-- Storage path the second implementation chooses: the active tab pluralized
as a directory, a timestamp and the sanitized original name. -/
def mainFilePathV2 (now : Nat) (tab : String) (f : WFile) : String :=
  tab ++ "s/" ++ toString now ++ "_" ++ sanitizeFileName f.name

/-- Thumbnail storage path of the second implementation. -/
def thumbPathV2 (now : Nat) (tf : WFile) : String :=
  "thumbnails/" ++ toString now ++ "_" ++ sanitizeFileName tf.name

/-- The document the second implementation inserts for a file upload. -/
def docOfUploadV2 (m : NewMediaV2) (tab : String) (f : WFile)
    (url fileName : String) (turl tpath : Option String) : InsertDoc :=
  { name := sanitizeFileName f.name, url := url, type := f.type,
    title := trimStr m.title, description := trimStr m.description,
    type_detail := if tab == "artwork" then trimStr m.type_detail else "",
    mediatype := if tab == "artwork" then "artwork" else "video",
    isexternallink := false, storagepath := some fileName,
    video_thumbnail_url := turl, video_thumbnail_path := tpath }

/-- The thumbnail validation step of handleFileUpload (second
implementation): performed only when a thumbnail file is present. -/
def thumbValidationV2 (m : NewMediaV2) : VResult :=
  match m.thumbnailFile with
  | some tf => validateFile tf true
  | none => ⟨true, none⟩

/-- handleFileUpload of the second implementation: validates the main file
and the optional thumbnail before any network call, uploads the main file
(aborting on failure), uploads the thumbnail best-effort, then inserts. -/
def handleFileUpload_v2 (m : NewMediaV2) (tab : String) (env : RemoteEnv)
    (s : SysState) : HandlerOut :=
  match m.file with
  | none =>
    ⟨s, RunStatus.validationError "Please provide a title and select a file", []⟩
  | some f =>
    if trimStr m.title == "" then
      ⟨s, RunStatus.validationError "Please provide a title and select a file", []⟩
    else
      let v := validateFile f false
      if v.isValid = false then
        ⟨s, RunStatus.validationError (v.error.getD "Invalid file"), []⟩
      else
        let tv := thumbValidationV2 m
        if tv.isValid = false then
          ⟨s, RunStatus.validationError (tv.error.getD "Invalid thumbnail file"), []⟩
        else
          let fileName := mainFilePathV2 s.now tab f
          match putBlob env s fileName with
          | (s1, false) =>
            ⟨s1, RunStatus.uploadError "Upload failed", [Effect.storagePut fileName]⟩
          | (s1, true) =>
            let publicUrl := getPublicUrl fileName
            match thumbStep env s1 (tab == "video") m.thumbnailFile
                (thumbPathV2 s.now) with
            | (s2, turl, tpath, teff) =>
              insertStep env s2 (docOfUploadV2 m tab f publicUrl fileName turl tpath)
                (Effect.storagePut fileName :: teff)
                "Failed to save media metadata. Please try again."

/-- The document the second implementation inserts for an external link: the
link-kind tag comes from the separately selected linkType, the kind from the
active tab; storagepath and the thumbnail columns are omitted from the insert
and take their null column defaults. -/
def docOfLinkV2 (m : NewMediaV2) (tab : String) : InsertDoc :=
  { name := trimStr m.title, url := trimStr m.externalUrl,
    type := (if m.linkType == "image" then "image" else "video") ++ "-link",
    title := trimStr m.title, description := trimStr m.description,
    type_detail := if tab == "artwork" then trimStr m.type_detail else "",
    mediatype := if tab == "artwork" then "artwork" else "video",
    isexternallink := true,
    storagepath := none, video_thumbnail_url := none,
    video_thumbnail_path := none }

/-- handleLinkSubmission of the second implementation. -/
def handleLinkSubmission_v2 (m : NewMediaV2) (tab : String) (env : RemoteEnv)
    (s : SysState) : HandlerOut :=
  if trimStr m.externalUrl == "" || trimStr m.title == "" then
    ⟨s, RunStatus.validationError "Please provide a title and URL", []⟩
  else
    let v := validateUrl (trimStr m.externalUrl)
    if v.isValid = false then
      ⟨s, RunStatus.validationError (v.error.getD "Invalid URL"), []⟩
    else
      insertStep env s (docOfLinkV2 m tab) [] "Failed to save link. Please try again."

/-- The item being edited in the second implementation; description and
type_detail are optional on the TS MediaItem type. -/
structure EditingItemV2 where
  id : Nat
  title : String
  description : Option String
  type_detail : Option String
deriving DecidableEq

/-- handleUpdateMedia of the second implementation always sends title,
description and type_detail; an absent description or type_detail is sent as
the empty string, and name is never sent. -/
def updateDataV2 (item : EditingItemV2) : UpdateData :=
  { title := some (trimStr item.title),
    description := some (trimStr (item.description.getD "")),
    type_detail := some (trimStr (item.type_detail.getD "")),
    name := none }

/-- handleUpdateMedia of the second implementation. -/
def handleUpdateMedia_v2 (item : EditingItemV2) (env : RemoteEnv) (s : SysState) :
    HandlerOut :=
  if trimStr item.title == "" then
    ⟨s, RunStatus.validationError "Please provide a title", []⟩
  else
    let u := updateDataV2 item
    let res := updateRows env s item.id u
    ⟨res.1,
     if res.2 then RunStatus.success
     else RunStatus.persistError "Failed to update media. Please try again.",
     [Effect.dbUpdate item.id u]⟩

/-- handleDeleteMedia of the second implementation: the catalog row is
deleted first; a failure aborts before any storage call.  On success, the
main blob (when the item is not an external link and has a storage path) and
the thumbnail blob are removed best-effort, their failures only logged. -/
def handleDeleteMedia_v2 (item : MediaRow) (env : RemoteEnv) (s : SysState) :
    HandlerOut :=
  match deleteRow env s item.id with
  | (s1, false) =>
    ⟨s1, RunStatus.persistError "Failed to delete media. Please try again.",
     [Effect.dbDelete item.id]⟩
  | (s1, true) =>
    let step2 : SysState × List Effect :=
      if item.isexternallink = false then
        match item.storagepath with
        | some p => ((removeBlob env s1 p).1, [Effect.storageRemove p])
        | none => (s1, [])
      else (s1, [])
    match step2 with
    | (s2, eff2) =>
      let step3 : SysState × List Effect :=
        match item.video_thumbnail_path with
        | some tp => ((removeBlob env s2 tp).1, [Effect.storageRemove tp])
        | none => (s2, [])
      match step3 with
      | (s3, eff3) =>
        ⟨s3, RunStatus.success, Effect.dbDelete item.id :: eff2 ++ eff3⟩

/-! ### fetchAll (catalog client) -/

/-- The kind filter of a fetch: the galleries pass eq(mediatype, kind), the
admin view fetches unfiltered. -/
def matchesKind (kind : Option String) (r : MediaRow) : Bool :=
  match kind with
  | some k => r.mediatype == k
  | none => true

/-- The ordering used by every fetch: created_at descending. -/
def createdDesc (a b : MediaRow) : Prop := b.created_at ≤ a.created_at

instance : DecidableRel createdDesc := fun a b =>
  Nat.decLe b.created_at a.created_at

instance : IsTotal MediaRow createdDesc :=
  ⟨fun a b => Nat.le_total b.created_at a.created_at⟩

instance : IsTrans MediaRow createdDesc :=
  ⟨fun _ _ _ hab hbc => Nat.le_trans hbc hab⟩

/-- The query every fetch issues: select all columns, filter by kind when a
filter is given, order by created_at descending, and no limit. -/
def fetchAllQuery (kind : Option String) (catalog : List MediaRow) :
    List MediaRow :=
  List.insertionSort createdDesc (catalog.filter (matchesKind kind))

/-! ### Gallery fetch/refetch race (catalog client consumers) -/

/-- State of a gallery component: the rendered snapshot, the error message,
the loading flag, and a ghost field recording which fetch (by initiation
index) wrote the current snapshot. -/
structure GalleryState where
  snapshot : List MediaRow
  errorMsg : Option String
  loading : Bool
  lastWriter : Option Nat
deriving DecidableEq

/-- Events of the fetch lifecycle: fetch number i is initiated, or its
response arrives (with data, or as an error).  Initiation order is the index
order; arrival order is the order in the trace. -/
inductive FetchEvent where
  | fetchStart (i : Nat)
  | fetchOk (i : Nat) (data : List MediaRow)
  | fetchErr (i : Nat)
deriving DecidableEq

/-- The fetchMediaItems callback, as the galleries run it when a response
arrives: a successful response unconditionally replaces the snapshot (there
is no sequence-number or staleness check in the source); an error response
sets the error message and leaves the snapshot. -/
def galleryStep (s : GalleryState) (e : FetchEvent) : GalleryState :=
  match e with
  | FetchEvent.fetchStart _ => s
  | FetchEvent.fetchOk i data =>
    { s with snapshot := data, loading := false, lastWriter := some i }
  | FetchEvent.fetchErr _ => { s with errorMsg := some "Failed to load" }

/-- Run a whole event trace. -/
def galleryRun (s : GalleryState) (tr : List FetchEvent) : GalleryState :=
  tr.foldl galleryStep s

/-- Trace well-formedness: fetches are initiated with increasing indices and
each response belongs to a fetch that was initiated and has not responded
yet.  The auxiliary arguments collect initiated and responded indices. -/
def wfTraceAux (started resolved : List Nat) : List FetchEvent → Bool
  | [] => true
  | FetchEvent.fetchStart i :: r =>
    started.all (fun j => j < i) && wfTraceAux (i :: started) resolved r
  | FetchEvent.fetchOk i _ :: r =>
    started.contains i && !(resolved.contains i) && wfTraceAux started (i :: resolved) r
  | FetchEvent.fetchErr i :: r =>
    started.contains i && !(resolved.contains i) && wfTraceAux started (i :: resolved) r

/-- A well-formed trace from the initial state. -/
def wellFormedTrace (tr : List FetchEvent) : Bool := wfTraceAux [] [] tr

/-- The claimed guarantee, as a check along the trace: no successful response
of a fetch initiated earlier than the writer of the current snapshot ever
overwrites that snapshot (last-write-wins by initiation order). -/
def noStaleOverwrite (s : GalleryState) : List FetchEvent → Bool
  | [] => true
  | e :: rest =>
    (match e, s.lastWriter with
     | FetchEvent.fetchOk i _, some j => decide (j ≤ i)
     | _, _ => true) && noStaleOverwrite (galleryStep s e) rest

/-- The data of the last successful response in a trace, with the index of
the fetch that produced it. -/
def lastOkData : List FetchEvent → Option (Nat × List MediaRow)
  | [] => none
  | e :: rest =>
    match lastOkData rest with
    | some x => some x
    | none =>
      match e with
      | FetchEvent.fetchOk i d => some (i, d)
      | _ => none

/-! ### The admin operations as one state machine -/

/-- Every mutating admin entry point of either implementation, with its
input and the remote environment it runs against. -/
inductive AdminOp where
  | fileV1 (form : UploadFormV1) (env : RemoteEnv)
  | linkV1 (form : UploadFormV1) (env : RemoteEnv)
  | fileV2 (m : NewMediaV2) (tab : String) (env : RemoteEnv)
  | linkV2 (m : NewMediaV2) (tab : String) (env : RemoteEnv)
  | updV1 (id : Nat) (f : EditFormV1) (env : RemoteEnv)
  | updV2 (item : EditingItemV2) (env : RemoteEnv)
  | delV1 (id : Nat) (p : Option String) (env : RemoteEnv)
  | delV2 (item : MediaRow) (env : RemoteEnv)

/-- Dispatch one admin operation. -/
def runOp (s : SysState) (op : AdminOp) : HandlerOut :=
  match op with
  | AdminOp.fileV1 form env => handleFileUpload_v1 form env s
  | AdminOp.linkV1 form env => handleExternalLinkUpload_v1 form env s
  | AdminOp.fileV2 m tab env => handleFileUpload_v2 m tab env s
  | AdminOp.linkV2 m tab env => handleLinkSubmission_v2 m tab env s
  | AdminOp.updV1 id f env => handleUpdate_v1 id f env s
  | AdminOp.updV2 item env => handleUpdateMedia_v2 item env s
  | AdminOp.delV1 id p env => handleDelete_v1 id p env s
  | AdminOp.delV2 item env => handleDeleteMedia_v2 item env s

/-- The state after one admin operation. -/
def stepState (s : SysState) (op : AdminOp) : SysState := (runOp s op).state

/-- The state after a sequence of admin operations. -/
def runOps (s : SysState) (ops : List AdminOp) : SysState := ops.foldl stepState s

/-- The invariant claimed for external links: a row flagged as an external
link has a null storage path and a null thumbnail storage path. -/
def linkNullInvariant (s : SysState) : Prop :=
  ∀ r ∈ s.catalog, r.isexternallink = true →
    r.storagepath = none ∧ r.video_thumbnail_path = none

/-! ### Concrete fixtures used by witnesses and counterexamples -/

/-- Environment in which every remote call succeeds. -/
def envOk : RemoteEnv :=
  ⟨fun _ => true, fun _ => true, true, true, fun _ => true⟩

/-- Environment in which every blob upload fails. -/
def envFailPut : RemoteEnv :=
  ⟨fun _ => false, fun _ => true, true, true, fun _ => true⟩

/-- Environment in which the catalog delete fails (or, for a missing id,
rejects the delete) and everything else succeeds. -/
def envNoDel : RemoteEnv :=
  ⟨fun _ => true, fun _ => true, true, true, fun _ => false⟩

/-- Environment in which exactly the two thumbnail uploads fail. -/
def envNoThumbB : RemoteEnv :=
  ⟨fun p => !(p == "thumbnails/0_t.png" || p == "thumbnails/0_thumbnail_t.png"),
   fun _ => true, true, true, fun _ => true⟩

/-- Fresh remote state: empty catalog and bucket, next id 1, clock 0. -/
def st0 : SysState := ⟨[], [], 1, 0⟩

/-- A 150 MB mp4 file (over the 100 MB video ceiling). -/
def bigFile : WFile := ⟨"big.mp4", "video/mp4", 157286400⟩

/-- A small valid mp4 file. -/
def vidFile : WFile := ⟨"a.mp4", "video/mp4", 1000⟩

/-- A small valid png thumbnail. -/
def thumbFile : WFile := ⟨"t.png", "image/png", 500⟩

/-- The oversized video in the form of the first implementation. -/
def bigFormV1 : UploadFormV1 :=
  ⟨some bigFile, none, "T", "", "", "video", false, ""⟩

/-- The oversized video in the form of the second implementation. -/
def bigM : NewMediaV2 := ⟨"T", "", "", "", "image", some bigFile, none⟩

/-- A valid video upload form for the first implementation. -/
def goodFormV1 : UploadFormV1 :=
  ⟨some vidFile, none, "T", "", "", "video", false, ""⟩

/-- A valid video upload form for the second implementation. -/
def goodM : NewMediaV2 := ⟨"T", "", "", "", "image", some vidFile, none⟩

/-- A video upload with thumbnail, first implementation. -/
def f7 : UploadFormV1 := ⟨some vidFile, some thumbFile, "T", "", "", "video", false, ""⟩

/-- A video upload with thumbnail, second implementation. -/
def m7 : NewMediaV2 := ⟨"T", "", "", "", "image", some vidFile, some thumbFile⟩

/-- An external link submitted on the videos tab with image as the selected
link type. -/
def mism : NewMediaV2 := ⟨"T", "", "", "https://youtube.com/watch", "image", none, none⟩

/-- A stored artwork row with a blob. -/
def row1 : MediaRow :=
  ⟨1, "a.png", "u", "image/png", 5, "t", "", "", "artwork", false,
   some "images/a.png", none, none⟩

/-- State holding row1 and its blob. -/
def sDel : SysState := ⟨[row1], ["images/a.png"], 2, 9⟩

/-- State holding row1 with a nonempty description. -/
def sKeep : SysState := ⟨[{ row1 with description := "keep" }], [], 2, 9⟩

/-- State with an empty catalog but a leftover blob in the bucket. -/
def sGhost : SysState := ⟨[], ["images/ghost.png"], 5, 9⟩

/-- An edit of row1 carrying only a new title (description, type detail and
name absent). -/
def ef1 : EditFormV1 := ⟨some "New", none, none, none⟩

/-- An editing item whose description and type detail are absent. -/
def editNoDescr : EditingItemV2 := ⟨1, "T", none, none⟩

/-- A gallery row used in the fetch-race trace. -/
def rowA : MediaRow :=
  ⟨1, "a", "u", "video/mp4", 5, "t", "", "", "video", false,
   some "videos/a.mp4", none, none⟩

/-- A second, later gallery row. -/
def rowB : MediaRow :=
  ⟨2, "b", "u2", "video/mp4", 7, "t2", "", "", "video", false, none, none, none⟩

/-- Initial gallery component state. -/
def initGallery : GalleryState := ⟨[], none, true, none⟩

/-- The racing trace: fetch 0 and fetch 1 are initiated in that order, fetch
1 responds first, then the response of fetch 0 arrives. -/
def staleTrace : List FetchEvent :=
  [FetchEvent.fetchStart 0, FetchEvent.fetchStart 1,
   FetchEvent.fetchOk 1 [rowA], FetchEvent.fetchOk 0 []]

/-! ### Shared lemmas -/

/-- The unfiltered (admin) fetch keeps every row. -/
theorem filter_matchesKind_none (catalog : List MediaRow) :
    catalog.filter (matchesKind none) = catalog := by
  induction catalog with
  | nil => rfl
  | cons r c ih => simp [List.filter, matchesKind, ih]

/-- A main file whose type is outside the combined allow-list, or whose size
is over the ceiling of its type class, fails validateFile. -/
theorem validateFile_main_invalid (f : WFile)
    (h : f.type ∉ ALL_ALLOWED_TYPES ∨
         (f.type ∈ ALLOWED_IMAGE_TYPES ∧ MAX_IMAGE_SIZE < f.size) ∨
         (f.type ∈ ALLOWED_VIDEO_TYPES ∧ MAX_VIDEO_SIZE < f.size)) :
    (validateFile f false).isValid = false := by
  rcases h with h | ⟨h1, h2⟩ | ⟨h1, h2⟩
  · simp [validateFile, h]
  · have hall : f.type ∈ ALL_ALLOWED_TYPES := by
      unfold ALL_ALLOWED_TYPES
      exact List.mem_append_left _ h1
    rw [validateFile]
    simp [hall, h1, h2]
  · have hall : f.type ∈ ALL_ALLOWED_TYPES := by
      unfold ALL_ALLOWED_TYPES
      exact List.mem_append_right _ h1
    rw [validateFile]
    by_cases himg : f.type ∈ ALLOWED_IMAGE_TYPES
    · have h3 : MAX_IMAGE_SIZE < f.size := by
        have hm : MAX_IMAGE_SIZE < MAX_VIDEO_SIZE := by decide
        omega
      simp [hall, himg, h3]
    · simp [hall, h1, himg, h2]

/-! ### Claim C5 -/

/-- C5: every fetchAll call returns the complete set of records matching the
kind filter — the unfiltered admin fetch keeps every record — ordered by
created_at descending, with no result-count limit: the result is a
permutation of the whole matching set. -/
theorem C5_fetchAll_complete_ordered_nolimit (kind : Option String)
    (catalog : List MediaRow) :
    (fetchAllQuery kind catalog).Perm (catalog.filter (matchesKind kind)) ∧
    List.Sorted createdDesc (fetchAllQuery kind catalog) ∧
    (fetchAllQuery kind catalog).length =
      (catalog.filter (matchesKind kind)).length ∧
    (fetchAllQuery none catalog).Perm catalog := by
  refine ⟨List.perm_insertionSort createdDesc _,
          List.sorted_insertionSort createdDesc _,
          (List.perm_insertionSort createdDesc _).length_eq, ?_⟩
  have h2 : fetchAllQuery none catalog = List.insertionSort createdDesc catalog := by
    unfold fetchAllQuery
    rw [filter_matchesKind_none]
  rw [h2]
  exact List.perm_insertionSort createdDesc catalog

/-! ### Claim C3 -/

/-- C3 counterexample: on the well-formed racing trace, the guarantee that a
snapshot written by a later-initiated fetch is never overwritten by the
response of an earlier-initiated fetch fails: after fetch 1 has delivered
its snapshot, the late response of the earlier fetch 0 replaces it. -/
theorem C3_stale_overwrite_cex :
    wellFormedTrace staleTrace = true ∧
    noStaleOverwrite initGallery staleTrace = false ∧
    (galleryRun initGallery (staleTrace.take 3)).snapshot = [rowA] ∧
    (galleryRun initGallery (staleTrace.take 3)).lastWriter = some 1 ∧
    (galleryRun initGallery staleTrace).snapshot = [] ∧
    (galleryRun initGallery staleTrace).lastWriter = some 0 := by
  decide

/-- C3 amended: the galleries apply responses in arrival order with no
staleness guard — after any trace the snapshot is the data of the last
successful response that arrived, whatever the initiation indices were
(last response to arrive wins, not last fetch initiated). -/
theorem C3_last_response_wins (s : GalleryState) (tr : List FetchEvent) :
    (galleryRun s tr).snapshot =
      (match lastOkData tr with
       | some (_, d) => d
       | none => s.snapshot) := by
  induction tr generalizing s with
  | nil => rfl
  | cons e rest ih =>
    have hrun : galleryRun s (e :: rest) = galleryRun (galleryStep s e) rest := rfl
    rw [hrun, ih]
    cases hres : lastOkData rest with
    | some x =>
      simp only [lastOkData, hres]
    | none =>
      cases e with
      | fetchStart i => simp only [lastOkData, hres, galleryStep]
      | fetchOk i d => simp only [lastOkData, hres, galleryStep]
      | fetchErr i => simp only [lastOkData, hres, galleryStep]

/-! ### Claim C10 -/

/-- C10: the external-link insert path of the second implementation creates,
from an admin input with the videos tab active but image selected as link
type, a record whose kind is video while its link-type tag is image-link;
the record is delivered by the videos fetch, and no edit operation ever
changes the kind or the tag, so nothing enforces agreement. -/
theorem C10_link_kind_tag_mismatch :
    (handleLinkSubmission_v2 mism "video" envOk st0).status = RunStatus.success ∧
    (handleLinkSubmission_v2 mism "video" envOk st0).state.catalog.map
      (fun r => (r.mediatype, r.type)) = [("video", "image-link")] ∧
    rowOfDoc 1 0 (docOfLinkV2 mism "video") ∈
      fetchAllQuery (some "video")
        (handleLinkSubmission_v2 mism "video" envOk st0).state.catalog ∧
    (∀ u r, (applyUpdateData u r).mediatype = r.mediatype ∧
      (applyUpdateData u r).type = r.type) := by
  refine ⟨by decide, by decide, by decide, fun u r => ⟨rfl, rfl⟩⟩

/-! ### Claim C2 -/

/-- C2 counterexample: the first implementation performs no validation at
all — a 150 MB video file (over the claimed 100 MB ceiling) is uploaded to
storage and a catalog row is inserted instead of failing with a validation
error before any network call. -/
theorem C2_no_validation_cex :
    MAX_VIDEO_SIZE < bigFile.size ∧
    bigFormV1.file = some bigFile ∧
    (handleFileUpload_v1 bigFormV1 envOk st0).status = RunStatus.success ∧
    (handleFileUpload_v1 bigFormV1 envOk st0).effects.head? =
      some (Effect.storagePut "videos/0_big.mp4") ∧
    (handleFileUpload_v1 bigFormV1 envOk st0).state.blobs = ["videos/0_big.mp4"] ∧
    (handleFileUpload_v1 bigFormV1 envOk st0).state.catalog.length = 1 := by
  decide

/-- C2 amended: in the second implementation, a main file whose type is
outside the combined image+video allow-list, or whose size exceeds the
ceiling of its own type class (10 MB for image types, 100 MB for video
types), makes the upload fail with a validation error before any network
call: the effect trace is empty and the remote state is untouched.  (The
first implementation performs no validation, and the allow-list and ceiling
are keyed by the type class of the file, not by the selected kind.) -/
theorem C2_validation_blocks_network_v2 (m : NewMediaV2) (tab : String)
    (env : RemoteEnv) (s : SysState) (f : WFile) (hf : m.file = some f)
    (hbad : f.type ∉ ALL_ALLOWED_TYPES ∨
            (f.type ∈ ALLOWED_IMAGE_TYPES ∧ MAX_IMAGE_SIZE < f.size) ∨
            (f.type ∈ ALLOWED_VIDEO_TYPES ∧ MAX_VIDEO_SIZE < f.size)) :
    (∃ msg, (handleFileUpload_v2 m tab env s).status =
      RunStatus.validationError msg) ∧
    (handleFileUpload_v2 m tab env s).effects = [] ∧
    (handleFileUpload_v2 m tab env s).state = s := by
  have hv := validateFile_main_invalid f hbad
  unfold handleFileUpload_v2
  rw [hf]
  cases ht : trimStr m.title == "" with
  | true => simp [ht]
  | false => simp [ht, hv]

/-- C2 witness: the 150 MB mp4 upload through the second implementation. -/
theorem C2_validation_witness :
    (∃ msg, (handleFileUpload_v2 bigM "video" envOk st0).status =
      RunStatus.validationError msg) ∧
    (handleFileUpload_v2 bigM "video" envOk st0).effects = [] ∧
    (handleFileUpload_v2 bigM "video" envOk st0).state = st0 :=
  C2_validation_blocks_network_v2 bigM "video" envOk st0 bigFile rfl
    (Or.inr (Or.inr ⟨by decide, by decide⟩))

/-! ### Claim C6 -/

/-- C6: in both implementations, when the main-file upload to object storage
fails, the operation aborts with an upload error, the only network call made
is the failed upload (in particular no catalog insert is issued), and the
remote state is unchanged. -/
theorem C6_main_upload_failure_aborts (form : UploadFormV1) (m : NewMediaV2)
    (tab : String) (env : RemoteEnv) (s : SysState) (f g : WFile)
    (h1 : form.file = some f)
    (h2 : env.putOk (mainFilePathV1 s.now form.mediatype f) = false)
    (h3 : m.file = some g)
    (h4 : (trimStr m.title == "") = false)
    (h5 : (validateFile g false).isValid = true)
    (h6 : (thumbValidationV2 m).isValid = true)
    (h7 : env.putOk (mainFilePathV2 s.now tab g) = false) :
    ((handleFileUpload_v1 form env s).status = RunStatus.uploadError "Upload failed" ∧
     (handleFileUpload_v1 form env s).effects =
       [Effect.storagePut (mainFilePathV1 s.now form.mediatype f)] ∧
     (handleFileUpload_v1 form env s).state = s) ∧
    ((handleFileUpload_v2 m tab env s).status = RunStatus.uploadError "Upload failed" ∧
     (handleFileUpload_v2 m tab env s).effects =
       [Effect.storagePut (mainFilePathV2 s.now tab g)] ∧
     (handleFileUpload_v2 m tab env s).state = s) := by
  constructor
  · unfold handleFileUpload_v1
    rw [h1]
    simp [putBlob, h2]
  · unfold handleFileUpload_v2
    rw [h3]
    simp [h4, h5, h6, putBlob, h7]

/-- C6 witness: a valid small video whose storage upload fails, in both
implementations. -/
theorem C6_main_upload_failure_witness :
    ((handleFileUpload_v1 goodFormV1 envFailPut st0).status =
       RunStatus.uploadError "Upload failed" ∧
     (handleFileUpload_v1 goodFormV1 envFailPut st0).effects =
       [Effect.storagePut (mainFilePathV1 st0.now goodFormV1.mediatype vidFile)] ∧
     (handleFileUpload_v1 goodFormV1 envFailPut st0).state = st0) ∧
    ((handleFileUpload_v2 goodM "video" envFailPut st0).status =
       RunStatus.uploadError "Upload failed" ∧
     (handleFileUpload_v2 goodM "video" envFailPut st0).effects =
       [Effect.storagePut (mainFilePathV2 st0.now "video" vidFile)] ∧
     (handleFileUpload_v2 goodM "video" envFailPut st0).state = st0) :=
  C6_main_upload_failure_aborts goodFormV1 goodM "video" envFailPut st0
    vidFile vidFile rfl rfl rfl (by decide) (by decide) (by decide) rfl

/-! ### Claim C7 -/

/-- C7: in both implementations, when a video upload carries a thumbnail and
the thumbnail upload to storage fails, the overall upload still completes:
the run reports success and the catalog gains exactly one row, whose
thumbnail URL and thumbnail storage path are both null. -/
theorem C7_thumbnail_failure_nonfatal (form : UploadFormV1) (m : NewMediaV2)
    (env : RemoteEnv) (s : SysState) (f tf g tg : WFile)
    (a1 : form.file = some f) (a2 : form.mediatype = "video")
    (a3 : form.thumbnailFile = some tf)
    (a4 : env.putOk (mainFilePathV1 s.now form.mediatype f) = true)
    (a5 : env.putOk (thumbPathV1 s.now tf) = false)
    (a6 : env.insertOk = true)
    (b1 : m.file = some g) (b2 : m.thumbnailFile = some tg)
    (b3 : (trimStr m.title == "") = false)
    (b4 : (validateFile g false).isValid = true)
    (b5 : (validateFile tg true).isValid = true)
    (b6 : env.putOk (mainFilePathV2 s.now "video" g) = true)
    (b7 : env.putOk (thumbPathV2 s.now tg) = false) :
    ((handleFileUpload_v1 form env s).status = RunStatus.success ∧
     (handleFileUpload_v1 form env s).state.catalog.head?.map
       (fun r => (r.video_thumbnail_url, r.video_thumbnail_path)) =
         some (none, none) ∧
     (handleFileUpload_v1 form env s).state.catalog.tail = s.catalog ∧
     (handleFileUpload_v1 form env s).state.catalog.length = s.catalog.length + 1) ∧
    ((handleFileUpload_v2 m "video" env s).status = RunStatus.success ∧
     (handleFileUpload_v2 m "video" env s).state.catalog.head?.map
       (fun r => (r.video_thumbnail_url, r.video_thumbnail_path)) =
         some (none, none) ∧
     (handleFileUpload_v2 m "video" env s).state.catalog.tail = s.catalog ∧
     (handleFileUpload_v2 m "video" env s).state.catalog.length = s.catalog.length + 1) := by
  constructor
  · unfold handleFileUpload_v1
    rw [a1]
    rw [a2] at a4
    simp [a2, a3, thumbStep, insertStep, putBlob, a4, a5, insertRow, a6, rowOfDoc, docOfUploadV1]
  · unfold handleFileUpload_v2
    rw [b1]
    have htv : (thumbValidationV2 m).isValid = true := by
      unfold thumbValidationV2
      rw [b2]
      exact b5
    simp [b2, b3, b4, htv, thumbStep, insertStep, putBlob, b6, b7, insertRow, a6, rowOfDoc, docOfUploadV2]

/-- C7 witness: a concrete video with thumbnail where exactly the thumbnail
uploads fail, in both implementations. -/
theorem C7_thumbnail_failure_witness :
    ((handleFileUpload_v1 f7 envNoThumbB st0).status = RunStatus.success ∧
     (handleFileUpload_v1 f7 envNoThumbB st0).state.catalog.head?.map
       (fun r => (r.video_thumbnail_url, r.video_thumbnail_path)) =
         some (none, none) ∧
     (handleFileUpload_v1 f7 envNoThumbB st0).state.catalog.tail = st0.catalog ∧
     (handleFileUpload_v1 f7 envNoThumbB st0).state.catalog.length =
       st0.catalog.length + 1) ∧
    ((handleFileUpload_v2 m7 "video" envNoThumbB st0).status = RunStatus.success ∧
     (handleFileUpload_v2 m7 "video" envNoThumbB st0).state.catalog.head?.map
       (fun r => (r.video_thumbnail_url, r.video_thumbnail_path)) =
         some (none, none) ∧
     (handleFileUpload_v2 m7 "video" envNoThumbB st0).state.catalog.tail =
       st0.catalog ∧
     (handleFileUpload_v2 m7 "video" envNoThumbB st0).state.catalog.length =
       st0.catalog.length + 1) :=
  C7_thumbnail_failure_nonfatal f7 m7 envNoThumbB st0 vidFile thumbFile
    vidFile thumbFile rfl rfl rfl (by decide) (by decide) rfl rfl rfl
    (by decide) (by decide) (by decide) (by decide) (by decide)

/-! ### Claim C1 -/

/-- C1 counterexample: in the first implementation the blob removal is
issued BEFORE the catalog delete, so when the row deletion fails the storage
deletion has already been attempted (and here succeeded): the effect trace
starts with the storage removal, the status is a persist error, and the blob
is gone while the row is still there. -/
theorem C1_delete_order_cex :
    (handleDelete_v1 1 (some "images/a.png") envNoDel sDel).effects =
      [Effect.storageRemove "images/a.png", Effect.dbDelete 1] ∧
    (handleDelete_v1 1 (some "images/a.png") envNoDel sDel).status =
      RunStatus.persistError "Failed to delete media item" ∧
    (handleDelete_v1 1 (some "images/a.png") envNoDel sDel).state.blobs = [] ∧
    (handleDelete_v1 1 (some "images/a.png") envNoDel sDel).state.catalog = [row1] := by
  decide

/-- C1 amended: in the second implementation the catalog row is deleted
first — the effect trace of every run starts with the catalog delete — and
when the row deletion fails the operation aborts with a persist error, no
storage deletion is attempted and the remote state is untouched.  In the
first implementation the main-blob removal is attempted before the row
deletion, so a failing row deletion does not prevent it. -/
theorem C1_delete_row_first_v2 (item : MediaRow) (env env2 : RemoteEnv)
    (s : SysState) (h : env.deleteOk item.id = false) :
    (handleDeleteMedia_v2 item env s).status =
      RunStatus.persistError "Failed to delete media. Please try again." ∧
    (handleDeleteMedia_v2 item env s).effects = [Effect.dbDelete item.id] ∧
    (handleDeleteMedia_v2 item env s).state = s ∧
    (handleDeleteMedia_v2 item env2 s).effects.head? =
      some (Effect.dbDelete item.id) := by
  refine ⟨?_, ?_, ?_, ?_⟩
  · unfold handleDeleteMedia_v2
    simp [deleteRow, h]
  · unfold handleDeleteMedia_v2
    simp [deleteRow, h]
  · unfold handleDeleteMedia_v2
    simp [deleteRow, h]
  · unfold handleDeleteMedia_v2 deleteRow
    split
    · rfl
    · rfl

/-- C1 witness: deleting row1 while the catalog delete fails. -/
theorem C1_delete_row_first_witness :
    (handleDeleteMedia_v2 row1 envNoDel sDel).status =
      RunStatus.persistError "Failed to delete media. Please try again." ∧
    (handleDeleteMedia_v2 row1 envNoDel sDel).effects = [Effect.dbDelete row1.id] ∧
    (handleDeleteMedia_v2 row1 envNoDel sDel).state = sDel ∧
    (handleDeleteMedia_v2 row1 envOk sDel).effects.head? =
      some (Effect.dbDelete row1.id) :=
  C1_delete_row_first_v2 row1 envNoDel envOk sDel rfl

/-! ### Claim C9 -/

/-- C9 counterexample: calling the first implementation with an id absent
from the catalog but a leftover storage path still removes the blob — the
object store is NOT left unchanged (the catalog is, and the result is a
persist error rather than a crash). -/
theorem C9_delete_missing_cex :
    sGhost.catalog = [] ∧
    (handleDelete_v1 7 (some "images/ghost.png") envNoDel sGhost).status =
      RunStatus.persistError "Failed to delete media item" ∧
    (handleDelete_v1 7 (some "images/ghost.png") envNoDel sGhost).state.blobs = [] ∧
    sGhost.blobs = ["images/ghost.png"] := by
  decide

/-- C9 amended: in the second implementation, deleting an id that is not in
the catalog — with the store rejecting the delete, as the spec contract for
the external catalog store prescribes — surfaces a persist error (the
handler is a total function, so it cannot throw), leaves both the catalog
and the object store unchanged, and attempts no storage removal.  In the
first implementation a supplied storage path is removed from the object
store even though the row deletion fails. -/
theorem C9_delete_missing_id_v2 (item : MediaRow) (env : RemoteEnv)
    (s : SysState) (_hmiss : ∀ r ∈ s.catalog, r.id ≠ item.id)
    (hstore : env.deleteOk item.id = false) :
    (∃ msg, (handleDeleteMedia_v2 item env s).status = RunStatus.persistError msg) ∧
    (handleDeleteMedia_v2 item env s).state = s ∧
    ∀ p, Effect.storageRemove p ∉ (handleDeleteMedia_v2 item env s).effects := by
  refine ⟨⟨"Failed to delete media. Please try again.", ?_⟩, ?_, ?_⟩
  · unfold handleDeleteMedia_v2
    simp [deleteRow, hstore]
  · unfold handleDeleteMedia_v2
    simp [deleteRow, hstore]
  · intro p
    unfold handleDeleteMedia_v2
    simp [deleteRow, hstore]

/-- C9 witness: deleting an id from the empty catalog. -/
theorem C9_delete_missing_witness :
    (∃ msg, (handleDeleteMedia_v2 row1 envNoDel st0).status =
      RunStatus.persistError msg) ∧
    (handleDeleteMedia_v2 row1 envNoDel st0).state = st0 ∧
    ∀ p, Effect.storageRemove p ∉ (handleDeleteMedia_v2 row1 envNoDel st0).effects :=
  C9_delete_missing_id_v2 row1 envNoDel st0 (by intro r hr; cases hr) rfl

/-! ### Claim C8 -/

/-- Agreement of two rows on every field outside the four editable ones. -/
def frameEq (r r0 : MediaRow) : Prop :=
  r.id = r0.id ∧ r.url = r0.url ∧ r.type = r0.type ∧
  r.created_at = r0.created_at ∧ r.mediatype = r0.mediatype ∧
  r.isexternallink = r0.isexternallink ∧ r.storagepath = r0.storagepath ∧
  r.video_thumbnail_url = r0.video_thumbnail_url ∧
  r.video_thumbnail_path = r0.video_thumbnail_path

/-- frameEq is reflexive. -/
theorem frameEq_refl (r : MediaRow) : frameEq r r :=
  ⟨rfl, rfl, rfl, rfl, rfl, rfl, rfl, rfl, rfl⟩

/-- A partial update never moves the non-editable fields. -/
theorem applyUpdateData_frame (u : UpdateData) (r : MediaRow) :
    frameEq (applyUpdateData u r) r :=
  ⟨rfl, rfl, rfl, rfl, rfl, rfl, rfl, rfl, rfl⟩

/-- C8 counterexample: the second implementation sends the description even
when it is absent from the editing input (as the empty string), so a stored
description is overwritten by an edit that did not carry one — the claim
that only fields explicitly present in the input are sent fails. -/
theorem C8_absent_field_sent_cex :
    editNoDescr.description = none ∧
    (updateDataV2 editNoDescr).description = some "" ∧
    sKeep.catalog.map MediaRow.description = ["keep"] ∧
    (handleUpdateMedia_v2 editNoDescr envOk sKeep).state.catalog.map
      MediaRow.description = [""] := by
  decide

/-- C8 amended: every row after either edit operation comes from a row of
the previous catalog with all non-editable fields (id, url, type,
created_at, mediatype, isexternallink, storagepath and both thumbnail
fields) unchanged; the first implementation moreover leaves each of the four
editable fields unchanged whenever it is absent from the edit form, while
the second always sends title, description and type_detail (absent ones as
the empty string) and never sends name. -/
theorem C8_edit_frame (id : Nat) (fm : EditFormV1) (item : EditingItemV2)
    (env : RemoteEnv) (s : SysState) :
    (∀ r ∈ (handleUpdate_v1 id fm env s).state.catalog, ∃ r0 ∈ s.catalog,
        frameEq r r0 ∧
        (fm.title = none → r.title = r0.title) ∧
        (fm.description = none → r.description = r0.description) ∧
        (fm.type_detail = none → r.type_detail = r0.type_detail) ∧
        (fm.name = none → r.name = r0.name)) ∧
    (updateDataV2 item).name = none ∧
    (updateDataV2 item).description = some (trimStr (item.description.getD "")) ∧
    (∀ r ∈ (handleUpdateMedia_v2 item env s).state.catalog, ∃ r0 ∈ s.catalog,
        frameEq r r0) := by
  refine ⟨?_, rfl, rfl, ?_⟩
  · intro r hr
    unfold handleUpdate_v1 updateRows at hr
    by_cases hu : env.updateOk = true
    · simp [hu] at hr
      obtain ⟨r0, hr0, hcase⟩ := hr
      by_cases hid : r0.id = id
      · rw [if_pos hid] at hcase
        subst hcase
        refine ⟨r0, hr0, applyUpdateData_frame _ r0, ?_, ?_, ?_, ?_⟩
        · intro hn
          simp [applyUpdateData, updateDataV1, hn]
        · intro hn
          simp [applyUpdateData, updateDataV1, hn]
        · intro hn
          simp [applyUpdateData, updateDataV1, hn]
        · intro hn
          simp [applyUpdateData, updateDataV1, hn]
      · rw [if_neg hid] at hcase
        subst hcase
        exact ⟨r0, hr0, frameEq_refl r0, fun _ => rfl,
               fun _ => rfl, fun _ => rfl, fun _ => rfl⟩
    · simp [hu] at hr
      exact ⟨r, hr, frameEq_refl r, fun _ => rfl, fun _ => rfl,
             fun _ => rfl, fun _ => rfl⟩
  · intro r hr
    unfold handleUpdateMedia_v2 updateRows at hr
    by_cases htit : trimStr item.title == ""
    · simp [htit] at hr
      exact ⟨r, hr, frameEq_refl r⟩
    · by_cases hu : env.updateOk = true
      · simp [htit, hu] at hr
        obtain ⟨r0, hr0, hcase⟩ := hr
        by_cases hid : r0.id = item.id
        · rw [if_pos hid] at hcase
          subst hcase
          exact ⟨r0, hr0, applyUpdateData_frame _ r0⟩
        · rw [if_neg hid] at hcase
          subst hcase
          exact ⟨r0, hr0, frameEq_refl r0⟩
      · simp [htit, hu] at hr
        exact ⟨r, hr, frameEq_refl r⟩

/-- C8 witness: editing row1 with only a title supplied, in a one-row
catalog, and the concrete updated row. -/
theorem C8_edit_frame_witness :
    ∃ r0 ∈ sKeep.catalog,
      frameEq (applyUpdateData (updateDataV1 ef1) { row1 with description := "keep" }) r0 ∧
      (ef1.title = none →
        (applyUpdateData (updateDataV1 ef1) { row1 with description := "keep" }).title = r0.title) ∧
      (ef1.description = none →
        (applyUpdateData (updateDataV1 ef1) { row1 with description := "keep" }).description = r0.description) ∧
      (ef1.type_detail = none →
        (applyUpdateData (updateDataV1 ef1) { row1 with description := "keep" }).type_detail = r0.type_detail) ∧
      (ef1.name = none →
        (applyUpdateData (updateDataV1 ef1) { row1 with description := "keep" }).name = r0.name) :=
  (C8_edit_frame 1 ef1 editNoDescr envOk sKeep).1
    (applyUpdateData (updateDataV1 ef1) { row1 with description := "keep" })
    (by decide)

/-! ### Claim C4 -/

/-- The discipline C4 requires of inserted documents: an external-link
document has null storage path and null thumbnail path. -/
def docLinkNullOk (doc : InsertDoc) : Prop :=
  doc.isexternallink = true →
    doc.storagepath = none ∧ doc.video_thumbnail_path = none

/-- A storage upload never touches the catalog, the id counter or the clock. -/
theorem putBlob_fields (env : RemoteEnv) (s : SysState) (p : String) :
    ((putBlob env s p).1).catalog = s.catalog ∧
    ((putBlob env s p).1).nextId = s.nextId ∧
    ((putBlob env s p).1).now = s.now := by
  unfold putBlob
  split <;> exact ⟨rfl, rfl, rfl⟩

/-- A storage removal never touches the catalog. -/
theorem removeBlob_catalog (env : RemoteEnv) (s : SysState) (p : String) :
    ((removeBlob env s p).1).catalog = s.catalog := by
  unfold removeBlob
  split <;> rfl

/-- The thumbnail step never touches the catalog, the id counter or the
clock. -/
theorem thumbStep_fields (env : RemoteEnv) (s1 : SysState) (cond : Bool)
    (tfOpt : Option WFile) (mkPath : WFile → String) :
    ((thumbStep env s1 cond tfOpt mkPath).1).catalog = s1.catalog ∧
    ((thumbStep env s1 cond tfOpt mkPath).1).nextId = s1.nextId ∧
    ((thumbStep env s1 cond tfOpt mkPath).1).now = s1.now := by
  unfold thumbStep
  cases cond with
  | false => exact ⟨rfl, rfl, rfl⟩
  | true =>
    cases tfOpt with
    | none => exact ⟨rfl, rfl, rfl⟩
    | some tf =>
      rcases hpb : putBlob env s1 (mkPath tf) with ⟨s2, b⟩
      have h := putBlob_fields env s1 (mkPath tf)
      rw [hpb] at h
      cases b <;> simpa [hpb] using h

/-- Every row left by the insert step is an old row or the materialized
document. -/
theorem insertStep_catalog_cases (env : RemoteEnv) (s2 : SysState)
    (doc : InsertDoc) (effs : List Effect) (failMsg : String) :
    ∀ r ∈ (insertStep env s2 doc effs failMsg).state.catalog,
      r ∈ s2.catalog ∨ r = rowOfDoc s2.nextId s2.now doc := by
  intro r hr
  by_cases hins : env.insertOk = true
  · simp [insertStep, insertRow, hins] at hr
    rcases hr with h | h
    · exact Or.inr h
    · exact Or.inl h
  · simp [insertStep, insertRow, hins] at hr
    exact Or.inl hr

/-- Every row left by the remote update comes from an old row, possibly with
the partial update applied. -/
theorem updateRows_catalog_cases (env : RemoteEnv) (s : SysState) (id : Nat)
    (u : UpdateData) :
    ∀ r ∈ ((updateRows env s id u).1).catalog,
      ∃ r0 ∈ s.catalog, r = r0 ∨ r = applyUpdateData u r0 := by
  intro r hr
  by_cases hu : env.updateOk = true
  · simp [updateRows, hu] at hr
    obtain ⟨r0, hr0, hc⟩ := hr
    by_cases hid : r0.id = id
    · rw [if_pos hid] at hc
      exact ⟨r0, hr0, Or.inr hc.symm⟩
    · rw [if_neg hid] at hc
      exact ⟨r0, hr0, Or.inl hc.symm⟩
  · simp [updateRows, hu] at hr
    exact ⟨r, hr, Or.inl rfl⟩

/-- The remote delete only removes rows. -/
theorem deleteRow_catalog_sub (env : RemoteEnv) (s : SysState) (id : Nat) :
    ∀ r ∈ ((deleteRow env s id).1).catalog, r ∈ s.catalog := by
  intro r hr
  by_cases hd : env.deleteOk id = true
  · simp [deleteRow, hd] at hr
    exact hr.1
  · simp [deleteRow, hd] at hr
    exact hr

/-- Catalog shape after the first file-upload handler: old rows plus at most
one uploaded-file document (never an external link). -/
theorem handleFileUpload_v1_catalog (form : UploadFormV1) (env : RemoteEnv)
    (s : SysState) :
    ∀ r ∈ (handleFileUpload_v1 form env s).state.catalog,
      r ∈ s.catalog ∨ ∃ a b d, d.isexternallink = false ∧ r = rowOfDoc a b d := by
  intro r hr
  unfold handleFileUpload_v1 at hr
  cases hfile : form.file with
  | none =>
    simp only [hfile] at hr
    exact Or.inl hr
  | some f =>
    simp only [hfile] at hr
    rcases hpb : putBlob env s (mainFilePathV1 s.now form.mediatype f) with ⟨s1, b⟩
    have hs1 := putBlob_fields env s (mainFilePathV1 s.now form.mediatype f)
    rw [hpb] at hs1
    cases b with
    | false =>
      simp only [hpb] at hr
      exact Or.inl (hs1.1 ▸ hr)
    | true =>
      simp only [hpb] at hr
      rcases hts : thumbStep env s1 (form.mediatype == "video") form.thumbnailFile
          (thumbPathV1 s.now) with ⟨s2, turl, tpath, teff⟩
      have hs2 := thumbStep_fields env s1 (form.mediatype == "video")
        form.thumbnailFile (thumbPathV1 s.now)
      rw [hts] at hs2
      simp only [hts] at hr
      rcases insertStep_catalog_cases env s2 _ _ _ r hr with h | h
      · exact Or.inl (hs1.1 ▸ hs2.1 ▸ h)
      · exact Or.inr ⟨s2.nextId, s2.now, _, rfl, h⟩

/-- Catalog shape after the second file-upload handler. -/
theorem handleFileUpload_v2_catalog (m : NewMediaV2) (tab : String)
    (env : RemoteEnv) (s : SysState) :
    ∀ r ∈ (handleFileUpload_v2 m tab env s).state.catalog,
      r ∈ s.catalog ∨ ∃ a b d, d.isexternallink = false ∧ r = rowOfDoc a b d := by
  intro r hr
  unfold handleFileUpload_v2 at hr
  cases hfile : m.file with
  | none =>
    simp only [hfile] at hr
    exact Or.inl hr
  | some f =>
    simp only [hfile] at hr
    by_cases ht : (trimStr m.title == "") = true
    · rw [if_pos ht] at hr
      exact Or.inl hr
    · rw [if_neg ht] at hr
      by_cases hv : (validateFile f false).isValid = false
      · rw [if_pos hv] at hr
        exact Or.inl hr
      · rw [if_neg hv] at hr
        by_cases htv : (thumbValidationV2 m).isValid = false
        · rw [if_pos htv] at hr
          exact Or.inl hr
        · rw [if_neg htv] at hr
          rcases hpb : putBlob env s (mainFilePathV2 s.now tab f) with ⟨s1, b⟩
          have hs1 := putBlob_fields env s (mainFilePathV2 s.now tab f)
          rw [hpb] at hs1
          cases b with
          | false =>
            simp only [hpb] at hr
            exact Or.inl (hs1.1 ▸ hr)
          | true =>
            simp only [hpb] at hr
            rcases hts : thumbStep env s1 (tab == "video") m.thumbnailFile
                (thumbPathV2 s.now) with ⟨s2, turl, tpath, teff⟩
            have hs2 := thumbStep_fields env s1 (tab == "video") m.thumbnailFile
              (thumbPathV2 s.now)
            rw [hts] at hs2
            simp only [hts] at hr
            rcases insertStep_catalog_cases env s2 _ _ _ r hr with h | h
            · exact Or.inl (hs1.1 ▸ hs2.1 ▸ h)
            · exact Or.inr ⟨s2.nextId, s2.now, _, rfl, h⟩

/-- Catalog shape after the first external-link handler. -/
theorem handleExternalLinkUpload_v1_catalog (form : UploadFormV1)
    (env : RemoteEnv) (s : SysState) :
    ∀ r ∈ (handleExternalLinkUpload_v1 form env s).state.catalog,
      r ∈ s.catalog ∨ ∃ a b, r = rowOfDoc a b (docOfLinkV1 form) := by
  intro r hr
  unfold handleExternalLinkUpload_v1 at hr
  by_cases hurl : (form.externalUrl == "") = true
  · simp only [hurl, if_true] at hr
    exact Or.inl hr
  · simp only [hurl, if_false, Bool.false_eq_true] at hr
    rcases insertStep_catalog_cases env s _ _ _ r hr with h | h
    · exact Or.inl h
    · exact Or.inr ⟨s.nextId, s.now, h⟩

/-- Catalog shape after the second external-link handler. -/
theorem handleLinkSubmission_v2_catalog (m : NewMediaV2) (tab : String)
    (env : RemoteEnv) (s : SysState) :
    ∀ r ∈ (handleLinkSubmission_v2 m tab env s).state.catalog,
      r ∈ s.catalog ∨ ∃ a b, r = rowOfDoc a b (docOfLinkV2 m tab) := by
  intro r hr
  unfold handleLinkSubmission_v2 at hr
  by_cases hurl : (trimStr m.externalUrl == "" || trimStr m.title == "") = true
  · simp only [hurl, if_true] at hr
    exact Or.inl hr
  · simp only [hurl, if_false, Bool.false_eq_true] at hr
    by_cases hv : (validateUrl (trimStr m.externalUrl)).isValid = false
    · simp only [hv, if_true] at hr
      exact Or.inl hr
    · simp only [hv, if_false] at hr
      rcases insertStep_catalog_cases env s _ _ _ r hr with h | h
      · exact Or.inl h
      · exact Or.inr ⟨s.nextId, s.now, h⟩

/-- Catalog shape after the first edit handler. -/
theorem handleUpdate_v1_catalog (id : Nat) (fm : EditFormV1) (env : RemoteEnv)
    (s : SysState) :
    ∀ r ∈ (handleUpdate_v1 id fm env s).state.catalog,
      ∃ r0 ∈ s.catalog, r = r0 ∨ r = applyUpdateData (updateDataV1 fm) r0 := by
  intro r hr
  exact updateRows_catalog_cases env s id (updateDataV1 fm) r hr

/-- Catalog shape after the second edit handler. -/
theorem handleUpdateMedia_v2_catalog (item : EditingItemV2) (env : RemoteEnv)
    (s : SysState) :
    ∀ r ∈ (handleUpdateMedia_v2 item env s).state.catalog,
      ∃ r0 ∈ s.catalog, r = r0 ∨ r = applyUpdateData (updateDataV2 item) r0 := by
  intro r hr
  unfold handleUpdateMedia_v2 at hr
  by_cases ht : (trimStr item.title == "") = true
  · simp only [ht, if_true] at hr
    exact ⟨r, hr, Or.inl rfl⟩
  · simp only [ht, if_false, Bool.false_eq_true] at hr
    exact updateRows_catalog_cases env s item.id (updateDataV2 item) r hr

/-- Catalog shape after the first delete handler: a subset of the rows. -/
theorem handleDelete_v1_catalog (id : Nat) (p : Option String) (env : RemoteEnv)
    (s : SysState) :
    ∀ r ∈ (handleDelete_v1 id p env s).state.catalog, r ∈ s.catalog := by
  intro r hr
  unfold handleDelete_v1 at hr
  cases hp : p with
  | none =>
    rw [hp] at hr
    exact deleteRow_catalog_sub env s id r hr
  | some q =>
    rw [hp] at hr
    have hrem := removeBlob_catalog env s q
    have h := deleteRow_catalog_sub env (removeBlob env s q).1 id r hr
    exact hrem ▸ h

/-- Catalog shape after the second delete handler: a subset of the rows. -/
theorem handleDeleteMedia_v2_catalog (item : MediaRow) (env : RemoteEnv)
    (s : SysState) :
    ∀ r ∈ (handleDeleteMedia_v2 item env s).state.catalog, r ∈ s.catalog := by
  intro r hr
  unfold handleDeleteMedia_v2 at hr
  rcases hdel : deleteRow env s item.id with ⟨s1, b⟩
  have hsub := deleteRow_catalog_sub env s item.id
  rw [hdel] at hsub hr
  cases b with
  | false => exact hsub r hr
  | true =>
    simp only at hr
    rcases hst2 : (if item.isexternallink = false then
        match item.storagepath with
        | some p => (((removeBlob env s1 p).1), [Effect.storageRemove p])
        | none => (s1, ([] : List Effect))
      else (s1, ([] : List Effect))) with ⟨s2, eff2⟩
    have hs2 : s2.catalog = s1.catalog := by
      have hh : ((if item.isexternallink = false then
          match item.storagepath with
          | some p => (((removeBlob env s1 p).1), [Effect.storageRemove p])
          | none => (s1, ([] : List Effect))
        else (s1, ([] : List Effect))).1).catalog = s1.catalog := by
        split
        · split
          · exact removeBlob_catalog env s1 _
          · rfl
        · rfl
      rw [hst2] at hh
      exact hh
    simp only [hst2] at hr
    rcases hst3 : (match item.video_thumbnail_path with
        | some tp => (((removeBlob env s2 tp).1), [Effect.storageRemove tp])
        | none => (s2, ([] : List Effect))) with ⟨s3, eff3⟩
    have hs3 : s3.catalog = s2.catalog := by
      have hh : ((match item.video_thumbnail_path with
          | some tp => (((removeBlob env s2 tp).1), [Effect.storageRemove tp])
          | none => (s2, ([] : List Effect))).1).catalog = s2.catalog := by
        split
        · exact removeBlob_catalog env s2 _
        · rfl
      rw [hst3] at hh
      exact hh
    simp only [hst3] at hr
    exact hsub r (hs2 ▸ hs3 ▸ hr)

/-- One admin operation preserves the external-link null-path invariant. -/
theorem stepState_linkNull (s : SysState) (op : AdminOp)
    (h : linkNullInvariant s) : linkNullInvariant (stepState s op) := by
  intro r hr hext
  cases op with
  | fileV1 form env =>
    rcases handleFileUpload_v1_catalog form env s r hr with h1 | ⟨a, b, d, hd, hrd⟩
    · exact h r h1 hext
    · subst hrd
      rw [show (rowOfDoc a b d).isexternallink = d.isexternallink from rfl, hd] at hext
      cases hext
  | fileV2 m tab env =>
    rcases handleFileUpload_v2_catalog m tab env s r hr with h1 | ⟨a, b, d, hd, hrd⟩
    · exact h r h1 hext
    · subst hrd
      rw [show (rowOfDoc a b d).isexternallink = d.isexternallink from rfl, hd] at hext
      cases hext
  | linkV1 form env =>
    rcases handleExternalLinkUpload_v1_catalog form env s r hr with h1 | ⟨a, b, hrd⟩
    · exact h r h1 hext
    · subst hrd
      exact ⟨rfl, rfl⟩
  | linkV2 m tab env =>
    rcases handleLinkSubmission_v2_catalog m tab env s r hr with h1 | ⟨a, b, hrd⟩
    · exact h r h1 hext
    · subst hrd
      exact ⟨rfl, rfl⟩
  | updV1 id fm env =>
    rcases handleUpdate_v1_catalog id fm env s r hr with ⟨r0, hr0, hc⟩
    rcases hc with hc | hc
    · subst hc
      exact h _ hr0 hext
    · subst hc
      have hfields := applyUpdateData_frame (updateDataV1 fm) r0
      have hext0 : r0.isexternallink = true := by
        rw [← hfields.2.2.2.2.2.1]
        exact hext
      have h0 := h r0 hr0 hext0
      exact ⟨hfields.2.2.2.2.2.2.1 ▸ h0.1, hfields.2.2.2.2.2.2.2.2 ▸ h0.2⟩
  | updV2 item env =>
    rcases handleUpdateMedia_v2_catalog item env s r hr with ⟨r0, hr0, hc⟩
    rcases hc with hc | hc
    · subst hc
      exact h _ hr0 hext
    · subst hc
      have hfields := applyUpdateData_frame (updateDataV2 item) r0
      have hext0 : r0.isexternallink = true := by
        rw [← hfields.2.2.2.2.2.1]
        exact hext
      have h0 := h r0 hr0 hext0
      exact ⟨hfields.2.2.2.2.2.2.1 ▸ h0.1, hfields.2.2.2.2.2.2.2.2 ▸ h0.2⟩
  | delV1 id p env =>
    exact h r (handleDelete_v1_catalog id p env s r hr) hext
  | delV2 item env =>
    exact h r (handleDeleteMedia_v2_catalog item env s r hr) hext

/-- The invariant holds after any sequence of admin operations. -/
theorem runOps_linkNull (init : SysState) (ops : List AdminOp)
    (h : linkNullInvariant init) : linkNullInvariant (runOps init ops) := by
  induction ops generalizing init with
  | nil => exact h
  | cons op rest ih => exact ih (stepState init op) (stepState_linkNull init op h)

/-- C4: starting from any state satisfying the external-link discipline (in
particular the empty catalog), after any sequence of admin operations of
either implementation, every record returned by any fetch that is flagged as
an external link has a null storage path and a null thumbnail storage path —
external-link records never carry storage paths. -/
theorem C4_external_link_null_paths (init : SysState) (ops : List AdminOp)
    (kind : Option String) (h : linkNullInvariant init) :
    ∀ r ∈ fetchAllQuery kind (runOps init ops).catalog,
      r.isexternallink = true →
        r.storagepath = none ∧ r.video_thumbnail_path = none := by
  intro r hr hext
  have hinv := runOps_linkNull init ops h
  have hmem : r ∈ (runOps init ops).catalog := by
    unfold fetchAllQuery at hr
    have h1 : r ∈ (runOps init ops).catalog.filter (matchesKind kind) :=
      (List.mem_insertionSort createdDesc).mp hr
    exact (List.mem_filter.mp h1).1
  exact hinv r hmem hext

/-- C4 witness: from the empty state, insert the concrete external link
through the second implementation; the record the videos fetch returns has
null storage paths. -/
theorem C4_external_link_null_witness :
    (rowOfDoc 1 0 (docOfLinkV2 mism "video")).storagepath = none ∧
    (rowOfDoc 1 0 (docOfLinkV2 mism "video")).video_thumbnail_path = none :=
  C4_external_link_null_paths st0 [AdminOp.linkV2 mism "video" envOk]
    (some "video") (by intro r hr; cases hr)
    (rowOfDoc 1 0 (docOfLinkV2 mism "video")) (by decide) (by decide)

end MediaCatalog
